import Mathlib

/-
Verification of the Database Cluster controller of provider-digitalocean.

The development embeds, as pure Lean functions, the four-verb lifecycle
adapter from the controller file (Observe, Create, Update, Delete for the
Database Cluster managed resource) together with the helper functions
GenerateDatabase and LateInitializeSpec from pkg/clients/database/database.go.

Remote collaborators (the godo database API and the kube object store) are
embedded as an explicit environment of response functions, and every
operation returns, besides its result, the list of remote calls it issued.
A nil-pointer dereference in the Go code is embedded as the none result of
an Option-valued operation.
-/

namespace ProviderDO

/-- Error string errNotDB from the controller source. -/
def errNotDB : String := "managed resource is not a Database Cluster resource"

/-- Error string errGetDB from the controller source. -/
def errGetDB : String := "cannot get a Database Cluster"

/-- Error string errDBNameRequired from the controller source. -/
def errDBNameRequired : String := "name of Database Cluster is required"

/-- Error string errDBCreateFailed from the controller source. -/
def errDBCreateFailed : String := "creation of Database Cluster resource has failed"

/-- Error string errDBDeleteFailed from the controller source. -/
def errDBDeleteFailed : String := "deletion of Database Cluster resource has failed"

/-- Error string errDBUpdate from the controller source. -/
def errDBUpdate : String := "cannot update managed Database Cluster resource"

/-- Modelled from the spec: the v1alpha1 status constant for a cluster being created (section 4.3 table). -/
def StatusCreating : String := "creating"

/-- Modelled from the spec: the v1alpha1 status constant for an online cluster (section 4.3 table). -/
def StatusOnline : String := "online"

/-- Modelled from the spec: the v1alpha1 status constant for a migrating cluster (section 4.3 table). -/
def StatusMigrating : String := "migrating"

/-- Modelled from the spec: the v1alpha1 status constant for a resizing cluster (section 4.3 table). -/
def StatusResizing : String := "resizing"

/-- Modelled from the spec: the v1alpha1 status constant for a forking cluster (section 4.3 table). -/
def StatusForking : String := "forking"

/-- Embedding of errors.Wrap from github.com/pkg/errors: wrapping a nil
error yields nil, otherwise the message is prefixed to the cause. -/
def wrapErr (e : Option String) (msg : String) : Option String :=
  e.map (fun s => msg ++ ": " ++ s)

/-- HTTP response metadata of the godo client, as far as the code inspects it. -/
structure GodoResponse where
  statusCode : Nat
deriving Repr, DecidableEq

/-- True when a response is present and reports HTTP status 404. -/
def isNotFoundResp (r : Option GodoResponse) : Bool :=
  match r with
  | some resp => resp.statusCode == 404
  | none => false

/-- Modelled from the spec: do.IgnoreNotFound (pkg/clients, not under src)
drops an error when the response reports not-found, per section 7 of the
spec: a not-found response from the remote service is non-fatal. -/
def IgnoreNotFound (err : Option String) (r : Option GodoResponse) : Option String :=
  if isNotFoundResp r then none else err

/-- Modelled from the spec: v1alpha1.DODatabaseClusterParameters (apis
package, not under src). Field shapes follow their use in the src helpers:
engine, version and privateNetworkUUID are optional strings (the helpers
apply do.StringValue and do.LateInitializeString to them), numNodes, size,
region are plain, tags is a string list. -/
structure DODatabaseClusterParameters where
  engine : Option String
  version : Option String
  numNodes : Int
  size : String
  region : String
  privateNetworkUUID : Option String
  tags : List String
deriving Repr, DecidableEq

/-- Fields of godo.Database that the code reads. -/
structure Database where
  id : String
  engineSlug : String
  privateNetworkUUID : String
  tags : List String
  status : String
deriving Repr, DecidableEq

/-- Fields of godo.DatabaseCreateRequest that GenerateDatabase populates. -/
structure DatabaseCreateRequest where
  name : String
  engineSlug : String
  version : String
  numNodes : Int
  sizeSlug : String
  region : String
  privateNetworkUUID : String
  tags : List String
deriving Repr, DecidableEq

/-- Modelled from the spec: v1alpha1.DODatabaseClusterObservation (apis
package, not under src), the observed-state mirror holding the remote
identifier (a pointer, so optional) and the lifecycle status string. -/
structure DODatabaseClusterObservation where
  id : Option String
  status : String
deriving Repr, DecidableEq

/-- The crossplane condition kinds this controller can set. -/
inductive ConditionType where
  | creating
  | available
  | unavailable
  | deleting
deriving Repr, DecidableEq

/-- The Database Cluster managed resource, reduced to the fields the
controller reads or writes: object name, external-name metadata, the
desired-state parameters, whether a connection secret reference is present,
the observed state, and the condition last set. -/
structure DODatabaseCluster where
  name : String
  externalName : String
  forProvider : DODatabaseClusterParameters
  writeConnectionSecretToReference : Bool
  atProvider : DODatabaseClusterObservation
  condition : Option ConditionType
deriving Repr, DecidableEq

/-- A managed-resource handle: either the concrete Database Cluster type or
a handle of some other kind, for which the Go type assertion fails. -/
inductive Managed where
  | db (cr : DODatabaseCluster)
  | other
deriving Repr, DecidableEq

/-- Modelled from the spec: do.StringValue (pkg/clients, not under src)
dereferences an optional string, yielding the empty string if absent
(section 4.1: private-network id is the empty string if absent). -/
def StringValue (s : Option String) : String :=
  s.getD ""

/-- Modelled from the spec: do.LateInitializeString (pkg/clients, not under
src) fills an unset optional field from an observed value, never
overwriting a set field, and uses only observed values that are themselves
set, per section 4.2 and the doc comment of LateInitializeSpec in src
(updates any unset, i.e. nil, optional field that is set, i.e. non-zero, on
the observed value). -/
def LateInitializeString (s : Option String) (observed : String) : Option String :=
  if s.isSome then s
  else if observed = "" then s
  else some observed

/-- Embedding of GenerateDatabase from pkg/clients/database/database.go. -/
def GenerateDatabase (name : String) (p : DODatabaseClusterParameters) :
    DatabaseCreateRequest :=
  { name := name
    engineSlug := StringValue p.engine
    version := StringValue p.version
    numNodes := p.numNodes
    sizeSlug := p.size
    region := p.region
    privateNetworkUUID := StringValue p.privateNetworkUUID
    tags := p.tags }

/-- Embedding of LateInitializeSpec from pkg/clients/database/database.go.
Version is filled from the observed engine slug (the mapping the spec
flags as intentional), the private-network id from the observed one, and
the tag list is copied from the observed tags only when the desired list
is empty and the observed one is not. -/
def LateInitializeSpec (p : DODatabaseClusterParameters) (observed : Database) :
    DODatabaseClusterParameters :=
  { p with
    version := LateInitializeString p.version observed.engineSlug
    privateNetworkUUID := LateInitializeString p.privateNetworkUUID observed.privateNetworkUUID
    tags := if p.tags.length = 0 ∧ observed.tags.length ≠ 0 then observed.tags else p.tags }

/-- Modelled from the spec: dodb.GenerateObservation (pkg/clients/database,
not under src) mirrors the remote representation into the observed state
wholesale (section 3: ObservedState is overwritten wholesale on every
successful Observe, holding identifier and lifecycle status). -/
def GenerateObservation (observed : Database) : DODatabaseClusterObservation :=
  { id := some observed.id, status := observed.status }

/-- Embedding of setCrossplaneStatus: a Go switch on the observed status
with no fallthrough. The migrating and resizing cases and any unmatched
value change nothing. -/
def setCrossplaneStatus (cr : DODatabaseCluster) : DODatabaseCluster :=
  if cr.atProvider.status = StatusCreating then
    { cr with condition := some ConditionType.creating }
  else if cr.atProvider.status = StatusOnline then
    { cr with condition := some ConditionType.available }
  else if cr.atProvider.status = StatusMigrating then cr
  else if cr.atProvider.status = StatusResizing then cr
  else if cr.atProvider.status = StatusForking then
    { cr with condition := some ConditionType.unavailable }
  else cr

/-- Result triple of godo Databases.Get. -/
structure GetResult where
  db : Option Database
  response : Option GodoResponse
  err : Option String

/-- Result triple of godo Databases.Create. -/
structure CreateResult where
  db : Option Database
  response : Option GodoResponse
  err : Option String

/-- Result pair of godo Databases.Delete. -/
structure DeleteResult where
  response : Option GodoResponse
  err : Option String

/-- The remote collaborators: the godo database API and the kube object
store, given as response functions. -/
structure RemoteEnv where
  dbGet : String → GetResult
  dbCreate : DatabaseCreateRequest → CreateResult
  dbDelete : String → DeleteResult
  kubeUpdate : DODatabaseCluster → Option String

/-- One remote call issued by an operation, with the identifier or request
it carried. -/
inductive RemoteCall where
  | get (id : String)
  | create (req : DatabaseCreateRequest)
  | delete (id : String)
  | kubeUpdate
deriving Repr, DecidableEq

/-- The observation result returned to the reconciler. -/
structure ExternalObservation where
  resourceExists : Bool
  resourceUpToDate : Bool
deriving Repr, DecidableEq

/-- The creation result returned to the reconciler; connectionDetails
records whether connection details were generated. -/
structure ExternalCreation where
  connectionDetails : Bool
deriving Repr, DecidableEq

/-- Everything Observe produces: the observation, the returned error, the
possibly mutated handle, and the remote calls issued. -/
structure ObserveOutput where
  obs : ExternalObservation
  err : Option String
  mg : Managed
  calls : List RemoteCall
deriving Repr, DecidableEq

/-- Everything Create produces. -/
structure CreateOutput where
  creation : ExternalCreation
  err : Option String
  mg : Managed
  calls : List RemoteCall
deriving Repr, DecidableEq

/-- Everything Delete produces. -/
structure DeleteOutput where
  err : Option String
  mg : Managed
  calls : List RemoteCall
deriving Repr, DecidableEq

/-- Everything Update produces. -/
structure UpdateOutput where
  err : Option String
  mg : Managed
  calls : List RemoteCall
deriving Repr, DecidableEq

/-- Embedding of dbExternal.Observe. The none result marks a nil-pointer
dereference: the source dereferences the fetched database without a nil
check once the fetch error is nil. -/
def Observe (env : RemoteEnv) (mg : Managed) : Option ObserveOutput :=
  match mg with
  | Managed.other =>
      some { obs := { resourceExists := false, resourceUpToDate := false }
             err := some errNotDB, mg := mg, calls := [] }
  | Managed.db cr =>
      let en := cr.externalName
      if en = "" then
        some { obs := { resourceExists := false, resourceUpToDate := false }
               err := none, mg := Managed.db cr, calls := [] }
      else
        let r := env.dbGet en
        if r.err.isSome then
          some { obs := { resourceExists := false, resourceUpToDate := false }
                 err := wrapErr (IgnoreNotFound r.err r.response) errGetDB
                 mg := Managed.db cr, calls := [RemoteCall.get en] }
        else
          match r.db with
          | none => none
          | some observed =>
              let currentSpec := cr.forProvider
              let newSpec := LateInitializeSpec cr.forProvider observed
              let cr1 := { cr with forProvider := newSpec }
              if newSpec ≠ currentSpec then
                match env.kubeUpdate cr1 with
                | some e =>
                    some { obs := { resourceExists := false, resourceUpToDate := false }
                           err := wrapErr (some e) errDBUpdate
                           mg := Managed.db cr1
                           calls := [RemoteCall.get en, RemoteCall.kubeUpdate] }
                | none =>
                    let cr2 := setCrossplaneStatus
                      { cr1 with atProvider := GenerateObservation observed }
                    some { obs := { resourceExists := true, resourceUpToDate := true }
                           err := none, mg := Managed.db cr2
                           calls := [RemoteCall.get en, RemoteCall.kubeUpdate] }
              else
                let cr2 := setCrossplaneStatus
                  { cr1 with atProvider := GenerateObservation observed }
                some { obs := { resourceExists := true, resourceUpToDate := true }
                       err := none, mg := Managed.db cr2
                       calls := [RemoteCall.get en] }

/-- Embedding of dbExternal.Create. The Creating condition is set before
the remote call; the name falls back from the external-name to the object
name; a nil database or non-nil error from the remote create takes the
failure branch, whose returned error is errors.Wrap of the remote error. -/
def Create (env : RemoteEnv) (mg : Managed) : CreateOutput :=
  match mg with
  | Managed.other =>
      { creation := { connectionDetails := false }, err := some errNotDB
        mg := mg, calls := [] }
  | Managed.db cr0 =>
      let cr := { cr0 with condition := some ConditionType.creating }
      let name := if cr.externalName ≠ "" then cr.externalName else cr.name
      if name = "" then
        { creation := { connectionDetails := false }, err := some errDBNameRequired
          mg := Managed.db cr, calls := [] }
      else
        let req := GenerateDatabase name cr.forProvider
        let r := env.dbCreate req
        match r.db with
        | none =>
            { creation := { connectionDetails := false }
              err := wrapErr r.err errDBCreateFailed
              mg := Managed.db cr, calls := [RemoteCall.create req] }
        | some db =>
            if r.err.isSome then
              { creation := { connectionDetails := false }
                err := wrapErr r.err errDBCreateFailed
                mg := Managed.db cr, calls := [RemoteCall.create req] }
            else
              let cr2 := { cr with externalName := db.id }
              { creation := { connectionDetails := cr2.writeConnectionSecretToReference }
                err := none, mg := Managed.db cr2, calls := [RemoteCall.create req] }

/-- Embedding of dbExternal.Update: an unconditional no-op success with no
type assertion and no remote call. -/
def Update (_env : RemoteEnv) (mg : Managed) : UpdateOutput :=
  { err := none, mg := mg, calls := [] }

/-- Embedding of dbExternal.Delete. The Deleting condition is set first;
then Status.AtProvider.ID is dereferenced with no nil check (the none
result marks the nil-pointer panic) and passed to the remote delete, whose
error is filtered through IgnoreNotFound and wrapped. -/
def Delete (env : RemoteEnv) (mg : Managed) : Option DeleteOutput :=
  match mg with
  | Managed.other => some { err := some errNotDB, mg := mg, calls := [] }
  | Managed.db cr0 =>
      let cr := { cr0 with condition := some ConditionType.deleting }
      match cr.atProvider.id with
      | none => none
      | some i =>
          let r := env.dbDelete i
          some { err := wrapErr (IgnoreNotFound r.err r.response) errDBDeleteFailed
                 mg := Managed.db cr, calls := [RemoteCall.delete i] }

/-- A remote environment whose calls all succeed vacuously: the get and
create calls return no database, no response metadata and no error, the
delete call returns no response and no error, and the kube update
succeeds. -/
def env0 : RemoteEnv :=
  { dbGet := fun _ => { db := none, response := none, err := none }
    dbCreate := fun _ => { db := none, response := none, err := none }
    dbDelete := fun _ => { response := none, err := none }
    kubeUpdate := fun _ => none }

/-- Desired-state parameters with every optional field unset. -/
def pEmpty : DODatabaseClusterParameters :=
  { engine := none, version := none, numNodes := 1, size := "s", region := "r"
    privateNetworkUUID := none, tags := [] }

/-- A resource named db1 with no external identity bound yet. -/
def crBase : DODatabaseCluster :=
  { name := "db1", externalName := "", forProvider := pEmpty
    writeConnectionSecretToReference := false
    atProvider := { id := none, status := "" }, condition := none }

/-- A resource whose external-name is A while the observed status
identifier is B, with observed status online. -/
def crBound : DODatabaseCluster :=
  { name := "db1", externalName := "A", forProvider := pEmpty
    writeConnectionSecretToReference := false
    atProvider := { id := some "B", status := "online" }, condition := none }

/-- C1. The remote create of env0 returns a nil database together with a
nil error; the code then takes the failure branch, but errors.Wrap of a
nil error is nil, so Create returns a nil error even though the remote
call was made and no external name was bound. -/
theorem C1_create_nil_result_nil_error_returns_success :
    (Create env0 (Managed.db crBase)).err = none ∧
    (Create env0 (Managed.db crBase)).calls ≠ [] ∧
    (Create env0 (Managed.db crBase)).err ≠ some (errDBCreateFailed) := by
  refine ⟨rfl, ?_, ?_⟩ <;> decide

/-- C3 counterexample: Update invoked on a handle that is not a Database
Cluster resource does not return the wrong-resource-kind error, so not all
four lifecycle operations fail on a wrong kind. -/
theorem C3_update_wrong_kind_returns_no_error :
    (Update env0 Managed.other).err ≠ some errNotDB := by
  decide

/-- C3 amended: Observe, Create and Delete each fail immediately with the
fixed wrong-resource-kind error and issue no remote call when the handle
is not a Database Cluster resource, while Update performs no type check
and is an unconditional no-op success. -/
theorem C3_wrong_kind_observe_create_delete_fail_update_noop (env : RemoteEnv) :
    Observe env Managed.other =
      some { obs := { resourceExists := false, resourceUpToDate := false }
             err := some errNotDB, mg := Managed.other, calls := [] } ∧
    Create env Managed.other =
      { creation := { connectionDetails := false }, err := some errNotDB
        mg := Managed.other, calls := [] } ∧
    Delete env Managed.other =
      some { err := some errNotDB, mg := Managed.other, calls := [] } ∧
    Update env Managed.other = { err := none, mg := Managed.other, calls := [] } :=
  ⟨rfl, rfl, rfl, rfl⟩

/-- C3 amended witness: under env0, Update on a wrong-kind handle is the
no-op success. -/
theorem C3_witness :
    Update env0 Managed.other = { err := none, mg := Managed.other, calls := [] } :=
  (C3_wrong_kind_observe_create_delete_fail_update_noop env0).2.2.2

/-- C4: Delete on a correctly typed resource dereferences the observed
status identifier with no nil check: a nil identifier makes the run the
nil-pointer panic, embedded as the none result, and a non-nil identifier
lets the run complete. -/
theorem C4_delete_nil_status_id_panics (env : RemoteEnv) (cr : DODatabaseCluster) :
    (cr.atProvider.id = none → Delete env (Managed.db cr) = none) ∧
    (∀ i, cr.atProvider.id = some i → (Delete env (Managed.db cr)).isSome = true) := by
  constructor
  · intro h
    simp [Delete, h]
  · intro i h
    simp [Delete, h]

/-- C4 witness: crBase has a nil observed identifier and Delete on it is
the panic result. -/
theorem C4_witness : Delete env0 (Managed.db crBase) = none :=
  (C4_delete_nil_status_id_panics env0 crBase).1 rfl

/-- C8: Observe on a correctly typed resource whose external-name is empty
returns exists=false with no error, leaves the handle unchanged and issues
zero remote calls. -/
theorem C8_observe_no_external_name (env : RemoteEnv) (cr : DODatabaseCluster)
    (h : cr.externalName = "") :
    Observe env (Managed.db cr) =
      some { obs := { resourceExists := false, resourceUpToDate := false }
             err := none, mg := Managed.db cr, calls := [] } := by
  simp [Observe, h]

/-- C8 witness: crBase has an empty external-name and Observe on it is the
exists=false result with no error and no calls. -/
theorem C8_witness :
    Observe env0 (Managed.db crBase) =
      some { obs := { resourceExists := false, resourceUpToDate := false }
             err := none, mg := Managed.db crBase, calls := [] } :=
  C8_observe_no_external_name env0 crBase rfl

/-- C5: LateInitializeSpec changes version only when it was unset, and then
only to the observed engine slug; it changes the private-network id only
when it was unset, and then only to the observed one; it replaces the tag
list with the observed tags exactly when the desired list was empty; it
never changes any field that was already set, and leaves engine, node
count, size and region untouched. -/
theorem C5_lateInitializeSpec_only_fills_unset
    (p : DODatabaseClusterParameters) (observed : Database) :
    ((LateInitializeSpec p observed).version ≠ p.version →
      p.version = none ∧
      (LateInitializeSpec p observed).version = some observed.engineSlug) ∧
    (p.version.isSome → (LateInitializeSpec p observed).version = p.version) ∧
    ((LateInitializeSpec p observed).privateNetworkUUID ≠ p.privateNetworkUUID →
      p.privateNetworkUUID = none ∧
      (LateInitializeSpec p observed).privateNetworkUUID =
        some observed.privateNetworkUUID) ∧
    (p.privateNetworkUUID.isSome →
      (LateInitializeSpec p observed).privateNetworkUUID = p.privateNetworkUUID) ∧
    (p.tags ≠ [] → (LateInitializeSpec p observed).tags = p.tags) ∧
    (p.tags = [] → (LateInitializeSpec p observed).tags = observed.tags) ∧
    (LateInitializeSpec p observed).engine = p.engine ∧
    (LateInitializeSpec p observed).numNodes = p.numNodes ∧
    (LateInitializeSpec p observed).size = p.size ∧
    (LateInitializeSpec p observed).region = p.region := by
  unfold LateInitializeSpec LateInitializeString
  refine ⟨?_, ?_, ?_, ?_, ?_, ?_, rfl, rfl, rfl, rfl⟩
  · intro hne
    cases hv : p.version with
    | some v => simp [hv] at hne
    | none =>
      simp only [hv, Option.isSome_none, Bool.false_eq_true, if_false] at hne ⊢
      by_cases hs : observed.engineSlug = "" <;> simp [hs] at hne ⊢
  · intro hv
    simp [hv]
  · intro hne
    cases hv : p.privateNetworkUUID with
    | some v => simp [hv] at hne
    | none =>
      simp only [hv, Option.isSome_none, Bool.false_eq_true, if_false] at hne ⊢
      by_cases hs : observed.privateNetworkUUID = "" <;> simp [hs] at hne ⊢
  · intro hv
    simp [hv]
  · intro ht
    simp [List.length_eq_zero, ht]
  · intro ht
    by_cases ho : observed.tags.length = 0
    · simp [ht, ho, List.length_eq_zero.mp ho]
    · simp [ht, ho]

/-- Desired-state parameters with version set and a non-empty tag list,
used to exercise the never-overwrite direction. -/
def pSet : DODatabaseClusterParameters :=
  { engine := none, version := some "v1", numNodes := 1, size := "s", region := "r"
    privateNetworkUUID := none, tags := ["x"] }

/-- An observed database whose engine slug and tags differ from pSet. -/
def obsDB : Database :=
  { id := "remote-id", engineSlug := "v2", privateNetworkUUID := "net"
    tags := ["a", "b"], status := "online" }

/-- C5 witness: with version already v1 and tags already x, late
initialization against an observed engine slug v2 and tags a, b changes
neither. -/
theorem C5_witness :
    (LateInitializeSpec pSet obsDB).version = pSet.version ∧
    (LateInitializeSpec pSet obsDB).tags = pSet.tags :=
  ⟨(C5_lateInitializeSpec_only_fills_unset pSet obsDB).2.1 (by decide),
   (C5_lateInitializeSpec_only_fills_unset pSet obsDB).2.2.2.2.1 (by decide)⟩

/-- C6: the condition set by setCrossplaneStatus is a deterministic
function of the observed status string: creating sets Creating, online
sets Available, forking sets Unavailable, while migrating, resizing and
every unmatched value leave the resource entirely unchanged; no error
path exists. -/
theorem C6_status_condition_mapping (cr : DODatabaseCluster) :
    (cr.atProvider.status = StatusCreating →
      setCrossplaneStatus cr = { cr with condition := some ConditionType.creating }) ∧
    (cr.atProvider.status = StatusOnline →
      setCrossplaneStatus cr = { cr with condition := some ConditionType.available }) ∧
    (cr.atProvider.status = StatusForking →
      setCrossplaneStatus cr = { cr with condition := some ConditionType.unavailable }) ∧
    (cr.atProvider.status = StatusMigrating → setCrossplaneStatus cr = cr) ∧
    (cr.atProvider.status = StatusResizing → setCrossplaneStatus cr = cr) ∧
    (cr.atProvider.status ≠ StatusCreating → cr.atProvider.status ≠ StatusOnline →
      cr.atProvider.status ≠ StatusMigrating → cr.atProvider.status ≠ StatusResizing →
      cr.atProvider.status ≠ StatusForking → setCrossplaneStatus cr = cr) := by
  refine ⟨?_, ?_, ?_, ?_, ?_, ?_⟩
  · intro h
    simp [setCrossplaneStatus, h, StatusCreating]
  · intro h
    simp [setCrossplaneStatus, h, StatusCreating, StatusOnline]
  · intro h
    simp [setCrossplaneStatus, h, StatusCreating, StatusOnline, StatusMigrating,
      StatusResizing, StatusForking]
  · intro h
    simp [setCrossplaneStatus, h, StatusCreating, StatusOnline, StatusMigrating]
  · intro h
    simp [setCrossplaneStatus, h, StatusCreating, StatusOnline, StatusMigrating,
      StatusResizing]
  · intro h1 h2 h3 h4 h5
    simp [setCrossplaneStatus, h1, h2, h3, h4, h5]

/-- C6 witness: crBound has observed status online, and the mapping sets
the Available condition. -/
theorem C6_witness :
    setCrossplaneStatus crBound =
      { crBound with condition := some ConditionType.available } :=
  (C6_status_condition_mapping crBound).2.1 rfl

/-- C9: on a correctly typed resource whose observed identifier is bound,
a not-found response from the remote delete yields a nil error, and any
other remote failure yields the remote error wrapped with the fixed
deletion-failure tag. -/
theorem C9_delete_notfound_success_else_wrapped
    (env : RemoteEnv) (cr : DODatabaseCluster) (i : String)
    (h : cr.atProvider.id = some i) :
    (isNotFoundResp (env.dbDelete i).response = true →
      (Delete env (Managed.db cr)).map DeleteOutput.err = some none) ∧
    (∀ e, (env.dbDelete i).err = some e →
      isNotFoundResp (env.dbDelete i).response = false →
      (Delete env (Managed.db cr)).map DeleteOutput.err =
        some (some (errDBDeleteFailed ++ ": " ++ e))) := by
  constructor
  · intro h404
    simp [Delete, h, IgnoreNotFound, h404, wrapErr]
  · intro e he h404
    simp [Delete, h, IgnoreNotFound, h404, he, wrapErr]

/-- A remote environment whose delete call reports not-found with an
accompanying error value. -/
def envDel404 : RemoteEnv :=
  { env0 with
    dbDelete := fun _ => { response := some { statusCode := 404 }, err := some "gone" } }

/-- C9 witness: deleting crBound, whose observed identifier is B, against a
remote that reports not-found returns a nil error. -/
theorem C9_witness :
    (Delete envDel404 (Managed.db crBound)).map DeleteOutput.err = some none :=
  (C9_delete_notfound_success_else_wrapped envDel404 crBound "B" rfl).1 rfl

/-- C2 counterexample: on crBound the external-name is A, yet the delete
call issued by Delete carries the observed status identifier B, so the
external-name is not the identifier used by the delete-by-identifier
call. -/
theorem C2_delete_uses_status_id_not_external_name :
    (Delete env0 (Managed.db crBound)).map DeleteOutput.calls =
      some [RemoteCall.delete "B"] ∧
    crBound.externalName = "A" ∧ ("B" : String) ≠ "A" := by
  refine ⟨rfl, rfl, ?_⟩
  decide

/-- Helper: when the external-name is bound, any completed Observe issued
exactly one get call keyed by the external-name, possibly followed by one
kube update. -/
theorem observe_calls_shape (env : RemoteEnv) (cr : DODatabaseCluster)
    (hen : ¬ cr.externalName = "") (out : ObserveOutput)
    (hout : Observe env (Managed.db cr) = some out) :
    out.calls = [RemoteCall.get cr.externalName] ∨
    out.calls = [RemoteCall.get cr.externalName, RemoteCall.kubeUpdate] := by
  simp only [Observe] at hout
  rw [if_neg hen] at hout
  split at hout
  · injection hout with h
    subst h
    left
    rfl
  · split at hout
    · exact Option.noConfusion hout
    · split at hout
      · split at hout
        · injection hout with h
          subst h
          right
          rfl
        · injection hout with h
          subst h
          right
          rfl
      · injection hout with h
        subst h
        left
        rfl

/-- C2 amended: once the external identity is bound, every fetch call made
by Observe is keyed by the external-name, while the delete-by-identifier
call made by Delete is keyed by the observed status identifier
Status.AtProvider.ID, which is a different stored identifier. -/
theorem C2_observe_keyed_by_external_name_delete_by_status_id
    (env : RemoteEnv) (cr : DODatabaseCluster) (hen : cr.externalName ≠ "") :
    (∀ out, Observe env (Managed.db cr) = some out →
      ∀ i, RemoteCall.get i ∈ out.calls → i = cr.externalName) ∧
    (∀ i, cr.atProvider.id = some i →
      (Delete env (Managed.db cr)).map DeleteOutput.calls =
        some [RemoteCall.delete i]) := by
  constructor
  · intro out hout i hi
    rcases observe_calls_shape env cr hen out hout with h | h <;>
      · rw [h] at hi
        simpa using hi
  · intro i h
    simp [Delete, h]

/-- C2 amended witness: on crBound, whose observed identifier is B, the
delete call is keyed by B. -/
theorem C2_witness :
    (Delete env0 (Managed.db crBound)).map DeleteOutput.calls =
      some [RemoteCall.delete "B"] :=
  (C2_observe_keyed_by_external_name_delete_by_status_id env0 crBound
    (by decide)).2 "B" rfl

/-- C7: Create on a correctly typed resource resolves the target name as
the external-name when that is non-empty, as the object name otherwise;
when both are empty it returns the fixed name-required error with zero
remote calls, and otherwise every create request it issues carries the
resolved name. -/
theorem C7_create_name_resolution (env : RemoteEnv) (cr : DODatabaseCluster) :
    (cr.externalName = "" → cr.name = "" →
      (Create env (Managed.db cr)).err = some errDBNameRequired ∧
      (Create env (Managed.db cr)).calls = []) ∧
    (cr.externalName ≠ "" →
      ∀ req, RemoteCall.create req ∈ (Create env (Managed.db cr)).calls →
        req.name = cr.externalName) ∧
    (cr.externalName = "" → cr.name ≠ "" →
      ∀ req, RemoteCall.create req ∈ (Create env (Managed.db cr)).calls →
        req.name = cr.name) := by
  refine ⟨?_, ?_, ?_⟩
  · intro hen hn
    constructor <;> simp [Create, hen, hn]
  · intro hen req hreq
    simp only [Create] at hreq
    rw [if_pos hen, if_neg hen] at hreq
    split at hreq <;>
      first
        | (simp at hreq
           subst hreq
           rfl)
        | (split at hreq <;>
            · simp at hreq
              subst hreq
              rfl)
  · intro hen hn req hreq
    simp only [Create] at hreq
    rw [if_neg (not_not_intro hen), if_neg hn] at hreq
    split at hreq <;>
      first
        | (simp at hreq
           subst hreq
           rfl)
        | (split at hreq <;>
            · simp at hreq
              subst hreq
              rfl)

/-- A resource with neither an external-name nor an object name. -/
def crNoName : DODatabaseCluster := { crBase with name := "" }

/-- C7 witness: with both names empty, Create fails with the name-required
error and issues no remote call. -/
theorem C7_witness :
    (Create env0 (Managed.db crNoName)).err = some errDBNameRequired ∧
    (Create env0 (Managed.db crNoName)).calls = [] :=
  (C7_create_name_resolution env0 crNoName).1 rfl rfl

/-- A remote environment whose get call reports not-found: no database, a
404 response, and a non-nil error. -/
def envGet404 : RemoteEnv :=
  { env0 with
    dbGet := fun _ =>
      { db := none, response := some { statusCode := 404 }, err := some "not found" } }

/-- C10 counterexample: on crBound, whose external identity is bound, a
remote not-found during the fetch makes Observe return with no error yet
report exists=false and upToDate=false, so a successful Observe does not
always report upToDate=true. -/
theorem C10_observe_notfound_no_error_not_uptodate :
    (Observe envGet404 (Managed.db crBound)).map
        (fun o => (o.err, o.obs.resourceExists, o.obs.resourceUpToDate)) =
      some (none, false, false) ∧
    crBound.externalName ≠ "" := by
  constructor
  · rfl
  · decide

/-- C10 amended: every Observe that returns without error and reports the
resource as existing reports upToDate=true; the swallowed not-found case
returns without error but with exists=false and upToDate=false. -/
theorem C10_observe_success_exists_uptodate
    (env : RemoteEnv) (mg : Managed) (out : ObserveOutput)
    (hout : Observe env mg = some out) (herr : out.err = none)
    (hex : out.obs.resourceExists = true) :
    out.obs.resourceUpToDate = true := by
  cases mg with
  | other =>
    simp only [Observe] at hout
    injection hout with h
    subst h
    simp at hex
  | db cr =>
    simp only [Observe] at hout
    split at hout
    · injection hout with h
      subst h
      simp at hex
    · split at hout
      · injection hout with h
        subst h
        simp at hex
      · split at hout
        · exact Option.noConfusion hout
        · split at hout
          · split at hout
            · injection hout with h
              subst h
              simp at hex
            · injection hout with h
              subst h
              rfl
          · injection hout with h
            subst h
            rfl

/-- A remote environment whose get call succeeds with the observed
database obsDB. -/
def envGetOk : RemoteEnv :=
  { env0 with dbGet := fun _ => { db := some obsDB, response := none, err := none } }

/-- A default observe output used only to project out of an Option. -/
def outDefault : ObserveOutput :=
  { obs := { resourceExists := false, resourceUpToDate := false }
    err := none, mg := Managed.other, calls := [] }

/-- C10 amended witness: a successful fetch of obsDB for crBound completes
without error, reports the resource as existing, and reports it up to
date. -/
theorem C10_witness :
    ((Observe envGetOk (Managed.db crBound)).getD outDefault).obs.resourceUpToDate = true :=
  C10_observe_success_exists_uptodate envGetOk (Managed.db crBound)
    ((Observe envGetOk (Managed.db crBound)).getD outDefault)
    (by decide) (by decide) (by decide)

end ProviderDO
